import Mathlib

/-!
Verification of FlowKit plotting utilities (`flowkit/_utils/plot_utils.py`).

The Python source is shallowly embedded here: NumPy float arrays become
`List ℚ` (exact rational arithmetic standing in for IEEE doubles on the
rational inputs used throughout), boolean masks become `List Bool`, and
operations that can raise in Python return `Except`.  Transcendental
parts of the code (eigendecomposition angle, the half-sine luminance
envelope of the custom colormap) are embedded over `ℝ`.
-/

namespace FlowKit

/-- Binary minimum on ℚ, written so that kernel reduction works on concrete
rationals (the lattice `min` of Mathlib does not reduce under `decide`). -/
def rmin (a b : ℚ) : ℚ := if a ≤ b then a else b

/-- Binary maximum on ℚ (kernel-reducible). -/
def rmax (a b : ℚ) : ℚ := if a ≤ b then b else a

/-- Absolute value on ℚ (kernel-reducible). -/
def rabs (a : ℚ) : ℚ := if a < 0 then -a else a

/-- NumPy fancy indexing `xs[idx]`: pick elements of `xs` at positions `idx`.
Out-of-range positions return `default` (they do not occur in guarded uses). -/
def gather {α : Type} [Inhabited α] (xs : List α) (idx : List ℕ) : List α :=
  idx.map (fun i => xs.getD i default)

/-- Positions of `True` entries of a boolean mask (NumPy `np.flatnonzero(m)`,
and the index set selected by boolean-mask indexing `xs[m]`). -/
def maskIndices (m : List Bool) : List ℕ :=
  (List.range m.length).filter (fun i => m.getD i false)

/-- `np.min` over a 1-D array; NumPy raises on an empty array, callers in the
source always guard for non-emptiness, so the `[]` case is junk. -/
def npMin (l : List ℚ) : ℚ :=
  match l with
  | [] => 0
  | a :: t => t.foldl rmin a

/-- `np.max` over a 1-D array (same guard note as `npMin`). -/
def npMax (l : List ℚ) : ℚ :=
  match l with
  | [] => 0
  | a :: t => t.foldl rmax a

/-- Embedding of `_calculate_extent(data_1d, d_min, d_max, pad)`
(plot_utils.py lines 109-121): compute data min/max, a padding amount
`pad_d = max(abs(data_min), abs(data_max)) * pad`, and fill only the bounds
that were not explicitly supplied. -/
def calculateExtent (data : List ℚ) (dMin dMax : Option ℚ) (pad : ℚ) : ℚ × ℚ :=
  let dataMin := npMin data
  let dataMax := npMax data
  let padD := rmax (rabs dataMin) (rabs dataMax) * pad
  (dMin.getD (dataMin - padD), dMax.getD (dataMax + padD))

/-!  Embedding of `plot_scatter` (plot_utils.py lines 313-476).

Arrays are `List ℚ`; the figure side effects are dropped and the values the
figure receives (point positions, per-point fill colors and alphas, radius,
radius dimension, axis ranges) are collected in `ScatterResult`.  A density
fill color is represented by `some z` (the density value later pushed through
the fixed colormap and hex conversion, both injectively determined by `z`
and the whole `z` array); the neutral grey `"#d3d3d3"` override is `none`.
Python `TypeError`s from comparing/subtracting unset (`None`) bounds and the
NumPy error from reducing an empty array become `Except.error`. -/
/-- Errors plot_scatter can raise: comparing `None` bounds in
`if y_max > x_max:` (TypeError), arithmetic on `None` bounds in the density
branch (TypeError), and `np.min`/`np.max` of an empty array (ValueError). -/
inductive ScatterErr
  | noneCompare
  | noneArith
  | emptyReduce
deriving DecidableEq

/-- The data handed to the Bokeh figure by `plot_scatter`. -/
structure ScatterResult where
  xs : List ℚ
  ys : List ℚ
  zcolors : List (Option ℚ)
  alphas : List ℚ
  radius : ℚ
  radiusDimY : Bool
  xLo : Option ℚ
  xHi : ℚ
  yLo : Option ℚ
  yHi : ℚ
  binInfo : Option (ℤ × ℤ × ℤ)
deriving DecidableEq

/-- `x[event_mask]` when an event mask is given, else `x` unchanged. -/
def filteredBy (v : List ℚ) (em : Option (List Bool)) : List ℚ :=
  match em with
  | some m => gather v (maskIndices m)
  | none => v

/-- `highlight_mask[event_mask]` when an event mask is given. -/
def filteredMask (h : List Bool) (em : Option (List Bool)) : List Bool :=
  match em with
  | some m => gather h (maskIndices m)
  | none => h

/-- Python `int()` applied to a float: truncation toward zero. -/
def pyInt (q : ℚ) : ℤ := if 0 ≤ q then ⌊q⌋ else -⌊-q⌋

/-- The `if x_bin_count <= 0: x_bin_count = 1` clamp of the source. -/
def clampPos (z : ℤ) : ℤ := if z ≤ 0 then 1 else z

/-- `np.histogram2d` bin membership on one axis: `n` equal bins over
`[lo, hi]`, the right-most edge inclusive, values outside the range ignored. -/
def binIndex (lo hi : ℚ) (n : ℕ) (v : ℚ) : Option ℕ :=
  if lo ≤ v ∧ v ≤ hi then
    some (min (n - 1) (Int.toNat ⌊(v - lo) / ((hi - lo) / n)⌋))
  else none

/-- The 2-D histogram count of cell `(i, j)` (`np.histogram2d`). -/
def hist2dCount (pts : List (ℚ × ℚ)) (xlo xhi : ℚ) (nx : ℕ) (ylo yhi : ℚ)
    (ny : ℕ) (i j : ℕ) : ℕ :=
  pts.countP (fun p =>
    binIndex xlo xhi nx p.1 == some i && binIndex ylo yhi ny p.2 == some j)

/-- Center of histogram bin `i`: `0.5 * (edges[i] + edges[i+1])`. -/
def binCenter (lo hi : ℚ) (n i : ℕ) : ℚ := lo + ((i : ℚ) + 1/2) * ((hi - lo) / n)

/-- `scipy.interpolate.interpn(..., method="linear", bounds_error=False)` over
the grid of bin centers: bilinear interpolation of the histogram counts; query
points outside the center grid, or a degenerate (sub-2-point) grid axis,
produce NaN (`none`), which the caller maps to 0. -/
def interp2 (pts : List (ℚ × ℚ)) (xlo xhi : ℚ) (nx : ℕ) (ylo yhi : ℚ)
    (ny : ℕ) (qx qy : ℚ) : Option ℚ :=
  if 2 ≤ nx ∧ 2 ≤ ny then
    if qx < binCenter xlo xhi nx 0 ∨ binCenter xlo xhi nx (nx - 1) < qx ∨
        qy < binCenter ylo yhi ny 0 ∨ binCenter ylo yhi ny (ny - 1) < qy then
      none
    else
      let i := min (nx - 2) (Int.toNat ⌊(qx - binCenter xlo xhi nx 0) / ((xhi - xlo) / nx)⌋)
      let j := min (ny - 2) (Int.toNat ⌊(qy - binCenter ylo yhi ny 0) / ((yhi - ylo) / ny)⌋)
      let tx := (qx - binCenter xlo xhi nx i) / (binCenter xlo xhi nx (i + 1) - binCenter xlo xhi nx i)
      let ty := (qy - binCenter ylo yhi ny j) / (binCenter ylo yhi ny (j + 1) - binCenter ylo yhi ny j)
      let f : ℕ → ℕ → ℚ := fun a b => (hist2dCount pts xlo xhi nx ylo yhi ny a b : ℚ)
      some ((1 - tx) * (1 - ty) * f i j + tx * (1 - ty) * f (i + 1) j +
        (1 - tx) * ty * f i (j + 1) + tx * ty * f (i + 1) (j + 1))
  else none

/-- The comparison `np.argsort` uses, made total and deterministic by breaking
density ties by original position (ascending-by-density order). -/
def argsortKey (z : List ℚ) (i j : ℕ) : Prop :=
  z.getD i 0 < z.getD j 0 ∨ (z.getD i 0 = z.getD j 0 ∧ i ≤ j)

instance argsortKeyDecidable (z : List ℚ) : DecidableRel (argsortKey z) :=
  fun i j => by unfold argsortKey; infer_instance

/-- `idx = z.argsort()`: the positions `0, ..., len(z)-1` sorted ascending by
density value. -/
def argsort (z : List ℚ) : List ℕ :=
  List.insertionSort (argsortKey z) (List.range z.length)

/-- The color / alpha / draw-order stage of `plot_scatter` (lines 434-454):
density colors for all points, then the highlight override (grey + alpha 0.3
for non-highlighted, alpha 0.4 for highlighted, non-highlighted drawn first),
or uniform alpha 0.4 with no mask. -/
def finishScatter (x y z : List ℚ) (hm : Option (List Bool)) (radius : ℚ)
    (radiusDimY : Bool) (xLo : Option ℚ) (xHi : ℚ) (yLo : Option ℚ) (yHi : ℚ)
    (binInfo : Option (ℤ × ℤ × ℤ)) : ScatterResult :=
  let n := x.length
  let zcolors : List (Option ℚ) := z.map some
  match hm with
  | some m =>
      let zc := (List.range n).map (fun i => if m.getD i false then zcolors.getD i none else none)
      let al := (List.range n).map (fun i => if m.getD i false then (2/5 : ℚ) else 3/10)
      let nonIdx := (List.range n).filter (fun i => !(m.getD i false))
      let hiIdx := (List.range n).filter (fun i => m.getD i false)
      let fidx := nonIdx ++ hiIdx
      { xs := gather x fidx, ys := gather y fidx, zcolors := gather zc fidx,
        alphas := gather al fidx, radius := radius, radiusDimY := radiusDimY,
        xLo := xLo, xHi := xHi, yLo := yLo, yHi := yHi, binInfo := binInfo }
  | none =>
      { xs := x, ys := y, zcolors := zcolors,
        alphas := List.replicate n (2/5), radius := radius,
        radiusDimY := radiusDimY, xLo := xLo, xHi := xHi, yLo := yLo,
        yHi := yHi, binInfo := binInfo }

/-- The bin counts of the density branch (lines 379-402): base bin count
`int(1 / (bin_width * 0.003))`, per-axis counts scaled by
data-range/view-range, truncated by `int()` and clamped to at least 1. -/
def densityBins (x1 y1 : List ℚ) (xm xM ym yM w : ℚ) : ℤ × ℤ × ℤ :=
  let binCount := pyInt (1 / (w * (3/1000)))
  let xbc := clampPos (pyInt ((npMax x1 - npMin x1) / (xM - xm) * binCount))
  let ybc := clampPos (pyInt ((npMax y1 - npMin y1) / (yM - ym) * binCount))
  (binCount, xbc, ybc)

/-- The per-point density values (lines 404-422): 2-D histogram over the data
range extended by one bin width per side, bilinear interpolation at each
point, NaN→0. -/
def densityValues (x1 y1 : List ℚ) (xm xM ym yM w : ℚ) : List ℚ :=
  let bins := densityBins x1 y1 xm xM ym yM w
  let xbc := bins.2.1
  let ybc := bins.2.2
  let xdMin := npMin x1
  let xdMax := npMax x1
  let ydMin := npMin y1
  let ydMax := npMax y1
  let xdR := xdMax - xdMin
  let ydR := ydMax - ydMin
  let cdxMin := xdMin - xdR / (xbc : ℚ)
  let cdxMax := xdMax + xdR / (xbc : ℚ)
  let cdyMin := ydMin - ydR / (ybc : ℚ)
  let cdyMax := ydMax + ydR / (ybc : ℚ)
  let pts := x1.zip y1
  pts.map (fun p =>
    (interp2 pts cdxMin cdxMax xbc.toNat cdyMin cdyMax ybc.toNat p.1 p.2).getD 0)

/-- The density branch of `plot_scatter` (lines 376-430 followed by the shared
color stage): `np.min`/`np.max` fail on empty arrays; otherwise compute the
densities, sort all points ascending by density and carry any highlight mask
along with the same index permutation. -/
def densityStage (x1 y1 : List ℚ) (hm1 : Option (List Bool)) (xm xM ym yM : ℚ)
    (binWidth radius : ℚ) (radiusDimY : Bool) : Except ScatterErr ScatterResult :=
  if x1.isEmpty ∨ y1.isEmpty then .error .emptyReduce
  else
    let z := densityValues x1 y1 xm xM ym yM binWidth
    let idx := argsort z
    .ok (finishScatter (gather x1 idx) (gather y1 idx) (gather z idx)
          (hm1.map (fun h => gather h idx)) radius radiusDimY (some xm) xM
          (some ym) yM (some (densityBins x1 y1 xm xM ym yM binWidth)))

/-- The guarded extent resolution of `plot_scatter`:
`if len(x) > 0: x_min, x_max = _calculate_extent(x, x_min, x_max, 0.02)`;
on empty data the supplied (possibly `None`) bounds pass through untouched. -/
def resolvedExtents (v : List ℚ) (lo hi : Option ℚ) : Option ℚ × Option ℚ :=
  if 0 < v.length then
    (some (calculateExtent v lo hi (1/50)).1, some (calculateExtent v lo hi (1/50)).2)
  else (lo, hi)

/-- `plot_scatter` after filtering and extent resolution: the bound comparison
`if y_max > x_max:` (a Python `TypeError` when a bound is still `None`),
radius selection, then density or flat-color staging. -/
def afterExtents (x1 y1 : List ℚ) (hm1 : Option (List Bool))
    (xe ye : Option ℚ × Option ℚ) (colorDensity : Bool) (binWidth : ℚ) :
    Except ScatterErr ScatterResult :=
  match xe.2, ye.2 with
  | some xM, some yM =>
    let radiusDimY := decide (xM < yM)
    let radius := if xM < yM then 3/1000 * yM else 3/1000 * xM
    if colorDensity then
      match xe.1, ye.1 with
      | some xm, some ym => densityStage x1 y1 hm1 xm xM ym yM binWidth radius radiusDimY
      | _, _ => .error .noneArith
    else
      .ok (finishScatter x1 y1 (List.replicate x1.length 0) hm1 radius
            radiusDimY xe.1 xM ye.1 yM none)
  | _, _ => .error .noneCompare

/-- `plot_scatter` after event-mask filtering. -/
def plotScatterCore (x1 y1 : List ℚ) (hm1 : Option (List Bool))
    (xMin xMax yMin yMax : Option ℚ) (colorDensity : Bool) (binWidth : ℚ) :
    Except ScatterErr ScatterResult :=
  afterExtents x1 y1 hm1 (resolvedExtents x1 xMin xMax)
    (resolvedExtents y1 yMin yMax) colorDensity binWidth

/-- Embedding of `plot_scatter`.  Follows the source line by line: event-mask
filtering (of the data and of the highlight mask), then `plotScatterCore`.
`np.vstack([x, y]).T` requires `len(x) = len(y)`, which theorems assume where
it matters. -/
def plotScatter (x y : List ℚ) (eventMask highlightMask : Option (List Bool))
    (xMin xMax yMin yMax : Option ℚ) (colorDensity : Bool) (binWidth : ℚ) :
    Except ScatterErr ScatterResult :=
  plotScatterCore (filteredBy x eventMask) (filteredBy y eventMask)
    (highlightMask.map (fun h => filteredMask h eventMask))
    xMin xMax yMin yMax colorDensity binWidth

/-!  Embedding of the `plot_gate` control-flow prefix (lines 478-582).

`plot_gate` resolves the gate, rejects Boolean gates, walks the gate's
dimensions (ratio / quadrant-divider / regular), dispatches on the dimension
count, and only then calls `sample.subsample_events` and preprocesses the
event table.  The remainder (label resolution, plotting, overlays, titles) is
outside the claims and is abstracted; a trace records the collaborator calls
made, so "zero calls to the subsample collaborator" is a statement about the
trace. -/
inductive DimKind
  | ratio
  | quadrantDivider
  | regular
deriving DecidableEq

/-- A gate dimension: its reference id (`ratio_ref` / `dimension_ref` /
`id`), optional min/max and compensation reference. -/
structure GateDim where
  kind : DimKind
  dimId : ℕ
  dimMin : Option ℚ
  dimMax : Option ℚ
  compRef : Option ℕ
deriving DecidableEq

inductive GateKind
  | boolean
  | polygon
  | ellipsoid
  | rectangle
  | quadrant
deriving DecidableEq

structure PGate where
  kind : GateKind
  dims : List GateDim
deriving DecidableEq

/-- The typed errors of the `plot_gate` prefix: `TypeError` for Boolean
gates, `ValueError` "appears to not reference any dimensions" for 0
dimensions, `NotImplementedError` for more than 2. -/
inductive GateErr
  | booleanNotAllowed
  | noDims
  | tooManyDims
deriving DecidableEq

inductive CollabCall
  | getGate
  | subsampleEvents
  | preprocessEvents
deriving DecidableEq

inductive GateType
  | hist
  | scatter
deriving DecidableEq

/-- The dimension loop body (lines 534-554): each dimension contributes its
ordered id, min/max (cleared for quadrant dividers) and is-ratio flag. -/
def resolveDim (d : GateDim) : ℕ × Option ℚ × Option ℚ × Bool :=
  match d.kind with
  | .ratio => (d.dimId, d.dimMin, d.dimMax, true)
  | .quadrantDivider => (d.dimId, none, none, false)
  | .regular => (d.dimId, d.dimMin, d.dimMax, false)

/-- The `plot_gate` prefix: gate resolution (traced), Boolean check,
dimension resolution, dimension-count dispatch, then (only on success)
subsampling and event preprocessing (traced). -/
def plotGatePrefix (g : PGate) : Except GateErr GateType × List CollabCall :=
  let trace := [CollabCall.getGate]
  if g.kind = .boolean then (.error .booleanNotAllowed, trace)
  else
    let dimIdsOrdered := (g.dims.map resolveDim).map (fun p => p.1)
    let dimCount := dimIdsOrdered.length
    if dimCount = 1 then
      (.ok .hist, trace ++ [CollabCall.subsampleEvents, CollabCall.preprocessEvents])
    else if dimCount = 2 then
      (.ok .scatter, trace ++ [CollabCall.subsampleEvents, CollabCall.preprocessEvents])
    else if 2 < dimCount then (.error .tooManyDims, trace)
    else (.error .noDims, trace)

/-!  Embedding of `render_ellipse` (lines 243-275) over ℝ.

`np.linalg.eigh` on a symmetric 2×2 matrix `[[a,b],[b,c]]` returns the
eigenvalues in ascending order with orthonormal eigenvector columns; for a
diagonal input LAPACK returns the standard basis.  `np.argsort` on two
values is the stable two-element sort.  `np.arctan2(y, x)` is the principal
argument of the complex number `x + y*i`. -/
structure EllipseShape where
  cx : ℝ
  cy : ℝ
  width : ℝ
  height : ℝ
  angle : ℝ

/-- `np.arctan2 y x`: the angle of the point `(x, y)`, in `(-π, π]`. -/
noncomputable def arctan2 (y x : ℝ) : ℝ := Complex.arg ⟨x, y⟩

/-- `np.linalg.eigh [[a,b],[b,c]]`: `((λ0, λ1), (v0, v1))` with `λ0 ≤ λ1`
and eigenvector columns `v0, v1`.  The `b = 0` branch mirrors LAPACK's exact
output on diagonal matrices (standard-basis eigenvectors); otherwise the
closed-form normalized eigenpairs are used. -/
noncomputable def eigh2 (a b c : ℝ) : (ℝ × ℝ) × ((ℝ × ℝ) × (ℝ × ℝ)) :=
  open Classical in
  if b = 0 then
    if a ≤ c then ((a, c), ((1, 0), (0, 1)))
    else ((c, a), ((0, 1), (1, 0)))
  else
    let m := (a + c) / 2
    let d := Real.sqrt (((a - c) / 2) ^ 2 + b ^ 2)
    let lam1 := m + d
    let n1 := Real.sqrt (b ^ 2 + (lam1 - a) ^ 2)
    let u1 := (b / n1, (lam1 - a) / n1)
    ((m - d, lam1), ((-u1.2, u1.1), u1))

/-- `values.argsort()[::-1]` for a 2-vector `[v0, v1]`: NumPy's argsort is
stable on ties, so the ascending order is `[1,0]` exactly when `v1 < v0`;
the code then reverses it. -/
noncomputable def argsortDesc2 (v0 v1 : ℝ) : ℕ × ℕ :=
  open Classical in
  if v1 < v0 then (0, 1) else (1, 0)

/-- Embedding of `render_ellipse`: eigendecompose the covariance matrix,
reorder eigenpairs by `values.argsort()[::-1]`, set the rotation angle to
`arctan2` of the reversed (y, x) components of the dominant eigenvector, and
emit full axis lengths `2*sqrt(eigenvalue*distance_square)`. -/
noncomputable def renderEllipse (cx cy a b c ds : ℝ) : EllipseShape :=
  let e := eigh2 a b c
  let vals := fun i : ℕ => if i = 0 then e.1.1 else e.1.2
  let vecs := fun i : ℕ => if i = 0 then e.2.1 else e.2.2
  let ord := argsortDesc2 e.1.1 e.1.2
  let dominant := vecs ord.1
  { cx := cx, cy := cy,
    width := 2 * Real.sqrt (vals ord.1 * ds),
    height := 2 * Real.sqrt (vals ord.2 * ds),
    angle := arctan2 dominant.2 dominant.1 }

/-!  Embedding of `_generate_custom_colormap` / `cm_sample` / `new_jet`
(lines 21-52).

The jet base colormap, the `colorsys` conversions and the triangular weight
are exact piecewise-rational functions and stay in ℚ; the half-sine luminance
envelope `new_lum` needs `Real.sin` and the sampled colors therefore live in
ℝ.  `colorsys.rgb_to_hls` is invoked by the source only for a discarded
variable `new_l` (the HLS lightness `(max+min)/2`), which is exactly the
`luminance` notion used below. -/
/-- Python float `% 1.0` for our exact values: the fractional part. -/
def fract (q : ℚ) : ℚ := q - ⌊q⌋

/-- The red channel of matplotlib's `jet` as an exact function of the
position `x ∈ [0, 1]` (jet's segment data, linearly interpolated). -/
def jetR (x : ℚ) : ℚ :=
  if x < 35/100 then 0
  else if x < 66/100 then (x - 35/100) / (31/100)
  else if x < 89/100 then 1
  else 1 - (1/2) * ((x - 89/100) / (11/100))

/-- The green channel of matplotlib's `jet`. -/
def jetG (x : ℚ) : ℚ :=
  if x < 125/1000 then 0
  else if x < 375/1000 then (x - 125/1000) / (25/100)
  else if x < 64/100 then 1
  else if x < 91/100 then 1 - (x - 64/100) / (27/100)
  else 0

/-- The blue channel of matplotlib's `jet`. -/
def jetB (x : ℚ) : ℚ :=
  if x < 11/100 then 1/2 + x / (11/100) * (1/2)
  else if x < 34/100 then 1
  else if x < 65/100 then 1 - (x - 34/100) / (31/100)
  else 0

/-- `base_colormap(i)` for an integer index: entry `i` of jet's 256-entry
lookup table, sampled at `x = i/255`. -/
def jetLut (i : ℕ) : ℚ × ℚ × ℚ :=
  (jetR ((i : ℚ) / 255), jetG ((i : ℚ) / 255), jetB ((i : ℚ) / 255))

/-- `colorsys.rgb_to_hsv`, exactly, over ℚ. -/
def rgbToHsv (r g b : ℚ) : ℚ × ℚ × ℚ :=
  let maxc := rmax r (rmax g b)
  let minc := rmin r (rmin g b)
  let v := maxc
  if maxc = minc then (0, 0, v)
  else
    let s := (maxc - minc) / maxc
    let rc := (maxc - r) / (maxc - minc)
    let gc := (maxc - g) / (maxc - minc)
    let bc := (maxc - b) / (maxc - minc)
    let h := if r = maxc then bc - gc
      else if g = maxc then 2 + rc - bc
      else 4 + gc - rc
    (fract (h / 6), s, v)

/-- `colorsys.hsv_to_rgb` with exact hue/saturation and a real value
channel (the modulated value contains the sine envelope). -/
noncomputable def hsvToRgb (h s : ℚ) (v : ℝ) : ℝ × ℝ × ℝ :=
  if s = 0 then (v, v, v)
  else
    let i := Int.toNat ⌊h * 6⌋ % 6
    let f : ℚ := h * 6 - ⌊h * 6⌋
    let p := v * (1 - (s : ℝ))
    let q := v * (1 - (s : ℝ) * (f : ℝ))
    let t := v * (1 - (s : ℝ) * (1 - (f : ℝ)))
    if i = 0 then (v, t, p)
    else if i = 1 then (q, v, p)
    else if i = 2 then (p, v, t)
    else if i = 3 then (p, q, v)
    else if i = 4 then (t, p, v)
    else (q, p, v)

/-- `new_lum[i]`: the half-sine luminance envelope
`sin(linspace(0, π, 256)) * 0.75 + 0.25` at index `i`. -/
noncomputable def newLum (i : ℕ) : ℝ :=
  Real.sin ((i : ℝ) * Real.pi / 255) * (3/4) + 1/4

/-- The fixed ascending list of 33 sampled indices (`cm_sample`). -/
def cmSample : List ℕ :=
  [0, 4, 8, 12, 24, 36, 48, 60, 72, 80, 92,
   100, 108, 116, 124, 132,
   139, 147, 155, 159,
   163, 167, 171, 175, 179, 183, 187, 191, 195, 199, 215, 231, 239]

/-- One loop iteration of `_generate_custom_colormap` at sample index `i`:
jet color → HSV; modulated value
`(v * triangular_weight(i) + new_lum[i]) / 2`; back to RGB at saturation 1.
(The source also computes the HLS lightness `new_l` of the result and
discards it.) -/
noncomputable def sampleColor (i : ℕ) : ℝ × ℝ × ℝ :=
  let rgb := jetLut i
  let hsv := rgbToHsv rgb.1 rgb.2.1 rgb.2.2
  let triW : ℚ := (196 - rabs ((i : ℚ) - 196)) / 196
  let modV : ℝ := ((hsv.2.2 : ℝ) * (triW : ℝ) + newLum i) / 2
  hsvToRgb hsv.1 1 modV

noncomputable def newColorList : List (ℝ × ℝ × ℝ) := cmSample.map sampleColor

/-- `LinearSegmentedColormap.from_list(name, colors, n)`: the colors are
placed at evenly spaced positions `k/(m-1)` and the `n`-entry lookup table
linearly interpolates them, sampled at `j/(n-1)`. -/
noncomputable def fromListLut (cs : List (ℝ × ℝ × ℝ)) (n : ℕ) :
    List (ℝ × ℝ × ℝ) :=
  (List.range n).map (fun (j : ℕ) =>
    let pos : ℚ := (j : ℚ) * ((cs.length : ℚ) - 1) / ((n : ℚ) - 1)
    let k := min (cs.length - 2) (Int.toNat ⌊pos⌋)
    let t : ℚ := pos - (k : ℚ)
    let c0 := cs.getD k (0, 0, 0)
    let c1 := cs.getD (k + 1) (0, 0, 0)
    (c0.1 + (t : ℝ) * (c1.1 - c0.1),
     c0.2.1 + (t : ℝ) * (c1.2.1 - c0.2.1),
     c0.2.2 + (t : ℝ) * (c1.2.2 - c0.2.2)))

/-- `new_jet`: the custom colormap's 256-entry lookup table. -/
noncomputable def newJet : List (ℝ × ℝ × ℝ) := fromListLut newColorList 256

/-- Luminance of a color: the HLS lightness `(max + min) / 2` (exactly the
`new_l` the source computes via `colorsys.rgb_to_hls`). -/
noncomputable def luminance (c : ℝ × ℝ × ℝ) : ℝ :=
  (max c.1 (max c.2.1 c.2.2) + min c.1 (min c.2.1 c.2.2)) / 2

theorem rmin_eq_min (a b : ℚ) : rmin a b = min a b := (min_def a b).symm

theorem rmax_eq_max (a b : ℚ) : rmax a b = max a b := (max_def a b).symm

theorem rabs_eq_abs (a : ℚ) : rabs a = |a| := by
  unfold rabs; split
  · exact (abs_of_neg (by assumption)).symm
  · exact (abs_of_nonneg (by linarith)).symm

theorem foldl_rmin_eq (t : List ℚ) (a : ℚ) : t.foldl rmin a = t.foldl min a := by
  have h : rmin = fun a b => min a b := funext fun a => funext fun b => rmin_eq_min a b
  rw [h]

theorem foldl_rmax_eq (t : List ℚ) (a : ℚ) : t.foldl rmax a = t.foldl max a := by
  have h : rmax = fun a b => max a b := funext fun a => funext fun b => rmax_eq_max a b
  rw [h]

theorem foldl_min_le_self (t : List ℚ) (a : ℚ) : t.foldl min a ≤ a := by
  induction t generalizing a with
  | nil => simp
  | cons b t ih => exact le_trans (ih (min a b)) (min_le_left a b)

theorem foldl_min_le_mem (t : List ℚ) (a : ℚ) (x : ℚ) (hx : x ∈ t) :
    t.foldl min a ≤ x := by
  induction t generalizing a with
  | nil => cases hx
  | cons b t ih =>
    rcases List.mem_cons.mp hx with h | h
    · subst h
      exact le_trans (foldl_min_le_self t (min a x)) (min_le_right a x)
    · exact ih (min a b) h

theorem le_foldl_max_self (t : List ℚ) (a : ℚ) : a ≤ t.foldl max a := by
  induction t generalizing a with
  | nil => simp
  | cons b t ih => exact le_trans (le_max_left a b) (ih (max a b))

theorem le_foldl_max_mem (t : List ℚ) (a : ℚ) (x : ℚ) (hx : x ∈ t) :
    x ≤ t.foldl max a := by
  induction t generalizing a with
  | nil => cases hx
  | cons b t ih =>
    rcases List.mem_cons.mp hx with h | h
    · subst h
      exact le_trans (le_max_right a x) (le_foldl_max_self t (max a x))
    · exact ih (max a b) h

/-- `npMin` bounds every element of a non-empty list from below. -/
theorem npMin_le (l : List ℚ) (x : ℚ) (hx : x ∈ l) : npMin l ≤ x := by
  cases l with
  | nil => cases hx
  | cons a t =>
    rw [npMin, foldl_rmin_eq]
    rcases List.mem_cons.mp hx with h | h
    · subst h; exact foldl_min_le_self t x
    · exact foldl_min_le_mem t a x h

/-- `npMax` bounds every element of a non-empty list from above. -/
theorem le_npMax (l : List ℚ) (x : ℚ) (hx : x ∈ l) : x ≤ npMax l := by
  cases l with
  | nil => cases hx
  | cons a t =>
    rw [npMax, foldl_rmax_eq]
    rcases List.mem_cons.mp hx with h | h
    · subst h; exact le_foldl_max_self t x
    · exact le_foldl_max_mem t a x h

/-- C5: for every non-empty 1-D data array, the extent calculator returns any
explicitly supplied bound unchanged, and otherwise returns
`lo = min(data) - pad * max(|min|, |max|)` and `hi = max(data)` plus the same
pad amount (where `npMin`/`npMax` really are the min/max of the data); in
particular `[1,2,3,4,5]` with `pad = 0` gives `(1, 5)` and with `pad = 1/10`
gives `(1/2, 11/2)`, i.e. bounds widened symmetrically by 10% of
`max(|1|, |5|)`. -/
theorem calculateExtent_spec (data : List ℚ) (dMin dMax : Option ℚ) (pad : ℚ)
    (_hne : data ≠ []) :
    (∀ a, dMin = some a → (calculateExtent data dMin dMax pad).1 = a) ∧
    (∀ b, dMax = some b → (calculateExtent data dMin dMax pad).2 = b) ∧
    (dMin = none →
      (calculateExtent data dMin dMax pad).1 =
        npMin data - max |npMin data| |npMax data| * pad) ∧
    (dMax = none →
      (calculateExtent data dMin dMax pad).2 =
        npMax data + max |npMin data| |npMax data| * pad) ∧
    (∀ x ∈ data, npMin data ≤ x ∧ x ≤ npMax data) ∧
    calculateExtent [1, 2, 3, 4, 5] none none 0 = (1, 5) ∧
    calculateExtent [1, 2, 3, 4, 5] none none (1/10) = (1/2, 11/2) := by
  refine ⟨?_, ?_, ?_, ?_, ?_, ?_, ?_⟩
  · intro a ha; simp [calculateExtent, ha]
  · intro b hb; simp [calculateExtent, hb]
  · intro h; simp [calculateExtent, h, rmax_eq_max, rabs_eq_abs]
  · intro h; simp [calculateExtent, h, rmax_eq_max, rabs_eq_abs]
  · intro x hx; exact ⟨npMin_le data x hx, le_npMax data x hx⟩
  · have h1 : npMin [1, 2, 3, 4, 5] = 1 := by norm_num [npMin, rmin]
    have h2 : npMax [1, 2, 3, 4, 5] = 5 := by norm_num [npMax, rmax]
    rw [calculateExtent, h1, h2]
    norm_num [rabs, rmax]
  · have h1 : npMin [1, 2, 3, 4, 5] = 1 := by norm_num [npMin, rmin]
    have h2 : npMax [1, 2, 3, 4, 5] = 5 := by norm_num [npMax, rmax]
    rw [calculateExtent, h1, h2]
    norm_num [rabs, rmax]

/-- Witness for C5 at the concrete input `[1,2,3,4,5]`, `pad = 1/10`. -/
theorem calculateExtent_spec_witness :
    ([1, 2, 3, 4, 5] : List ℚ) ≠ [] ∧
    calculateExtent [1, 2, 3, 4, 5] none none (1/10) = (1/2, 11/2) := by
  refine ⟨by simp, ?_⟩
  exact (calculateExtent_spec [1, 2, 3, 4, 5] none none (1/10) (by simp)).2.2.2.2.2.2

theorem one_le_clampPos (z : ℤ) : 1 ≤ clampPos z := by
  unfold clampPos; split <;> omega

theorem argsort_perm (z : List ℚ) : (argsort z).Perm (List.range z.length) :=
  List.perm_insertionSort _ _

theorem mem_argsort_lt (z : List ℚ) (i : ℕ) (h : i ∈ argsort z) : i < z.length :=
  List.mem_range.mp ((argsort_perm z).mem_iff.mp h)

/-!  Index-permutation toolkit for the sort and regroup stages. -/
theorem gather_length {α : Type} [Inhabited α] (xs : List α) (idx : List ℕ) :
    (gather xs idx).length = idx.length := by
  simp [gather]

theorem map_range_getD {α : Type} (xs : List α) (d : α) :
    (List.range xs.length).map (fun i => xs.getD i d) = xs := by
  apply List.ext_getElem
  · simp
  · intro i h1 h2
    simp only [List.getElem_map, List.getElem_range]
    exact List.getD_eq_getElem xs d h2

theorem gather_range {α : Type} [Inhabited α] (xs : List α) :
    gather xs (List.range xs.length) = xs := map_range_getD xs default

theorem map_range_const {α : Type} (n : ℕ) (c : α) :
    (List.range n).map (fun _ => c) = List.replicate n c := by
  apply List.ext_getElem
  · simp
  · intro i h1 h2
    simp

theorem getD_replicate_of_lt {α : Type} [Inhabited α] (n : ℕ) (a : α) (i : ℕ)
    (h : i < n) : (List.replicate n a).getD i default = a := by
  rw [List.getD_eq_getElem (List.replicate n a) default (by simpa using h)]
  exact List.getElem_replicate a (by simpa using h)

theorem gather_replicate {α : Type} [Inhabited α] (n : ℕ) (a : α) (idx : List ℕ)
    (h : ∀ i ∈ idx, i < n) :
    gather (List.replicate n a) idx = List.replicate idx.length a := by
  induction idx with
  | nil => rfl
  | cons i t ih =>
    have hi : i < n := h i (List.mem_cons_self i t)
    have ht : ∀ j ∈ t, j < n := fun j hj => h j (List.mem_cons_of_mem i hj)
    simp only [gather, List.map_cons, List.length_cons, List.replicate_succ]
    exact congrArg₂ List.cons (getD_replicate_of_lt n a i hi) (ih ht)

theorem map_range_zip {α β : Type} [Inhabited α] [Inhabited β]
    (xs : List α) (ys : List β) (hy : ys.length = xs.length) :
    (List.range xs.length).map (fun i => (xs.getD i default, ys.getD i default))
      = xs.zip ys := by
  apply List.ext_getElem
  · simp [hy]
  · intro i h1 h2
    have hx : i < xs.length := by simpa using h1
    have hyl : i < ys.length := by rw [hy]; simpa using h1
    simp only [List.getElem_map, List.getElem_range, List.getElem_zip]
    rw [List.getD_eq_getElem xs default hx, List.getD_eq_getElem ys default hyl]

theorem zip_gather_perm {α β : Type} [Inhabited α] [Inhabited β]
    (xs : List α) (ys : List β) (idx : List ℕ) (hy : ys.length = xs.length)
    (h : idx.Perm (List.range xs.length)) :
    ((gather xs idx).zip (gather ys idx)).Perm (xs.zip ys) := by
  have hzip : (gather xs idx).zip (gather ys idx)
      = idx.map (fun i => (xs.getD i default, ys.getD i default)) := by
    simp [gather, List.zip_map']
  rw [hzip, ← map_range_zip xs ys hy]
  exact h.map _

theorem mem_maskIndices_lt (m : List Bool) (i : ℕ) (h : i ∈ maskIndices m) :
    i < m.length := by
  unfold maskIndices at h
  exact List.mem_range.mp (List.mem_of_mem_filter h)

/-- `np.flatnonzero(~m) ++ np.flatnonzero(m)` is a permutation of all the
positions `0, ..., n-1` (source lines 445-447, with `n = len(m)`). -/
theorem flatnonzero_split_perm (n : ℕ) (p : ℕ → Bool) :
    ((List.range n).filter (fun i => !(p i)) ++ (List.range n).filter p).Perm
      (List.range n) := by
  have h := List.filter_append_perm (fun i => !(p i)) (List.range n)
  have h2 : (List.range n).filter (fun i => !!(p i)) = (List.range n).filter p := by
    apply List.filter_congr
    intro i _
    simp
  rw [h2] at h
  exact h

theorem finishScatter_radius (x y z : List ℚ) (hm : Option (List Bool))
    (radius : ℚ) (rdY : Bool) (xLo : Option ℚ) (xHi : ℚ) (yLo : Option ℚ)
    (yHi : ℚ) (bi : Option (ℤ × ℤ × ℤ)) :
    (finishScatter x y z hm radius rdY xLo xHi yLo yHi bi).radius = radius := by
  cases hm <;> rfl

theorem finishScatter_radiusDimY (x y z : List ℚ) (hm : Option (List Bool))
    (radius : ℚ) (rdY : Bool) (xLo : Option ℚ) (xHi : ℚ) (yLo : Option ℚ)
    (yHi : ℚ) (bi : Option (ℤ × ℤ × ℤ)) :
    (finishScatter x y z hm radius rdY xLo xHi yLo yHi bi).radiusDimY = rdY := by
  cases hm <;> rfl

theorem finishScatter_xHi (x y z : List ℚ) (hm : Option (List Bool))
    (radius : ℚ) (rdY : Bool) (xLo : Option ℚ) (xHi : ℚ) (yLo : Option ℚ)
    (yHi : ℚ) (bi : Option (ℤ × ℤ × ℤ)) :
    (finishScatter x y z hm radius rdY xLo xHi yLo yHi bi).xHi = xHi := by
  cases hm <;> rfl

theorem finishScatter_yHi (x y z : List ℚ) (hm : Option (List Bool))
    (radius : ℚ) (rdY : Bool) (xLo : Option ℚ) (xHi : ℚ) (yLo : Option ℚ)
    (yHi : ℚ) (bi : Option (ℤ × ℤ × ℤ)) :
    (finishScatter x y z hm radius rdY xLo xHi yLo yHi bi).yHi = yHi := by
  cases hm <;> rfl

theorem finishScatter_binInfo (x y z : List ℚ) (hm : Option (List Bool))
    (radius : ℚ) (rdY : Bool) (xLo : Option ℚ) (xHi : ℚ) (yLo : Option ℚ)
    (yHi : ℚ) (bi : Option (ℤ × ℤ × ℤ)) :
    (finishScatter x y z hm radius rdY xLo xHi yLo yHi bi).binInfo = bi := by
  cases hm <;> rfl

/-- Any successful `plotScatterCore` run with non-empty data resolves its upper
bounds through the extent calculator (2% pad) and takes radius and radius
dimension from their comparison. -/
theorem plotScatterCore_ok_fields (x1 y1 : List ℚ) (hm1 : Option (List Bool))
    (xMin xMax yMin yMax : Option ℚ) (cd : Bool) (w : ℚ) (r : ScatterResult)
    (hx : x1 ≠ []) (hy : y1 ≠ [])
    (hok : plotScatterCore x1 y1 hm1 xMin xMax yMin yMax cd w = .ok r) :
    r.xHi = (calculateExtent x1 xMin xMax (1/50)).2 ∧
    r.yHi = (calculateExtent y1 yMin yMax (1/50)).2 ∧
    r.radius = (if r.xHi < r.yHi then 3/1000 * r.yHi else 3/1000 * r.xHi) ∧
    r.radiusDimY = decide (r.xHi < r.yHi) := by
  have hxl : 0 < x1.length := List.length_pos.mpr hx
  have hyl : 0 < y1.length := List.length_pos.mpr hy
  simp only [plotScatterCore, resolvedExtents, if_pos hxl, if_pos hyl,
    afterExtents] at hok
  cases cd with
  | false =>
    simp only [Bool.false_eq_true, if_false, Except.ok.injEq] at hok
    subst hok
    simp [finishScatter_radius, finishScatter_radiusDimY, finishScatter_xHi,
      finishScatter_yHi]
  | true =>
    simp only [if_true] at hok
    unfold densityStage at hok
    rw [if_neg (by simp [List.isEmpty_iff, hx, hy])] at hok
    simp only [Except.ok.injEq] at hok
    subst hok
    simp [finishScatter_radius, finishScatter_radiusDimY, finishScatter_xHi,
      finishScatter_yHi]

/-- C1 (amended): when the point set is empty after event-mask filtering the
extent computation is indeed skipped (the supplied bounds pass through
untouched, so the failure below is `noneCompare`, not the empty-reduction
error the extent calculator would raise), but the call does not return an
empty figure: if either axis upper bound was not supplied, `plot_scatter`
fails at the `if y_max > x_max:` comparison of unset bounds. -/
theorem plotScatter_empty_fails (x y : List ℚ) (em hm : Option (List Bool))
    (xMin xMax yMin yMax : Option ℚ) (cd : Bool) (w : ℚ)
    (hx : filteredBy x em = []) (hy : filteredBy y em = [])
    (hmax : xMax = none ∨ yMax = none) :
    plotScatter x y em hm xMin xMax yMin yMax cd w = .error .noneCompare := by
  unfold plotScatter plotScatterCore resolvedExtents afterExtents
  rw [hx, hy]
  rcases hmax with h | h <;> subst h
  · cases yMax <;> rfl
  · cases xMax <;> rfl

/-- Witness for C1 (amended): concrete all-False event mask over two points,
with an explicit y upper bound but no x upper bound. -/
theorem plotScatter_empty_fails_witness :
    plotScatter [2, 3] [2, 3] (some [false, false]) none none none none
      (some 5) true 4 = .error .noneCompare := by
  apply plotScatter_empty_fails
  · simp only [filteredBy, maskIndices, gather]
    decide
  · simp only [filteredBy, maskIndices, gather]
    decide
  · exact Or.inl rfl

/-- Counterexample to C1 as stated: a call whose point set is empty after
event-mask filtering (event mask all False) and with no explicit bounds does
not return a figure that draws nothing — it fails with an error (Python
`TypeError` comparing the unset bounds). -/
theorem plotScatter_empty_cex :
    plotScatter [1] [1] (some [false]) none none none none none true 4
      = .error .noneCompare := by
  unfold plotScatter plotScatterCore resolvedExtents afterExtents
  have h : filteredBy [1] (some [false]) = ([] : List ℚ) := by
    simp [filteredBy, maskIndices, gather]
  rw [h]
  rfl

/-- C3: for every `plot_scatter` call with non-empty (filtered) data that
returns a figure, the point radius equals 0.3% of the larger of the two
resolved axis upper extents, and the recorded radius dimension is y exactly
when the y extent is larger (ties go to x, giving the same radius). -/
theorem plotScatter_radius_spec (x y : List ℚ) (em hm : Option (List Bool))
    (xMin xMax yMin yMax : Option ℚ) (cd : Bool) (w : ℚ) (r : ScatterResult)
    (hx : filteredBy x em ≠ []) (hy : filteredBy y em ≠ [])
    (hok : plotScatter x y em hm xMin xMax yMin yMax cd w = .ok r) :
    r.xHi = (calculateExtent (filteredBy x em) xMin xMax (1/50)).2 ∧
    r.yHi = (calculateExtent (filteredBy y em) yMin yMax (1/50)).2 ∧
    r.radius = 3/1000 * max r.xHi r.yHi ∧
    (r.radiusDimY = true ↔ r.xHi < r.yHi) := by
  have h := plotScatterCore_ok_fields (filteredBy x em) (filteredBy y em)
    (hm.map (fun h => filteredMask h em)) xMin xMax yMin yMax cd w r hx hy hok
  refine ⟨h.1, h.2.1, ?_, ?_⟩
  · rw [h.2.2.1]
    by_cases hc : r.xHi < r.yHi
    · rw [if_pos hc, max_eq_right (le_of_lt hc)]
    · rw [if_neg hc, max_eq_left (not_lt.mp hc)]
  · rw [h.2.2.2]
    simp

/-- Witness for C3 at the concrete call
`plot_scatter([1,2], [3,4], color_density=False)`. -/
theorem plotScatter_radius_spec_witness :
    filteredBy ([1, 2] : List ℚ) none ≠ [] ∧
    filteredBy ([3, 4] : List ℚ) none ≠ [] ∧
    ((⟨[1, 2], [3, 4], List.replicate 2 (some 0), List.replicate 2 (2/5),
        153/12500, true, some (24/25), 51/25, some (73/25), 102/25,
        none⟩ : ScatterResult).radius
      = 3/1000 * max (51/25 : ℚ) (102/25)) := by
  have hok : plotScatter [1, 2] [3, 4] none none none none none none false 4
      = .ok ⟨[1, 2], [3, 4], List.replicate 2 (some 0), List.replicate 2 (2/5),
          153/12500, true, some (24/25), 51/25, some (73/25), 102/25, none⟩ := by
    unfold plotScatter plotScatterCore resolvedExtents afterExtents filteredBy finishScatter
    norm_num [calculateExtent, npMin, npMax, rmin, rmax, rabs]
  have h := plotScatter_radius_spec [1, 2] [3, 4] none none none none none none
    false 4 _ (by simp [filteredBy]) (by simp [filteredBy]) hok
  exact ⟨by simp [filteredBy], by simp [filteredBy], h.2.2.1⟩

/-- C4 (amended): with density coloring enabled, the base bin count before
per-axis scaling equals the Python `int(...)` truncation (not rounding) of
`1/(bin_width*0.003)`, and the per-axis bin counts scaled by
data-range/view-range (and truncated the same way) are clamped to a minimum
of 1. -/
theorem plotScatter_binCounts_spec (x y : List ℚ) (em hm : Option (List Bool))
    (xMin xMax yMin yMax : Option ℚ) (w : ℚ) (r : ScatterResult) (b bx bY : ℤ)
    (hx : filteredBy x em ≠ []) (hy : filteredBy y em ≠ [])
    (hok : plotScatter x y em hm xMin xMax yMin yMax true w = .ok r)
    (hbin : r.binInfo = some (b, bx, bY)) :
    b = pyInt (1 / (w * (3/1000))) ∧
    bx = clampPos (pyInt ((npMax (filteredBy x em) - npMin (filteredBy x em)) /
      ((calculateExtent (filteredBy x em) xMin xMax (1/50)).2 -
        (calculateExtent (filteredBy x em) xMin xMax (1/50)).1) * b)) ∧
    bY = clampPos (pyInt ((npMax (filteredBy y em) - npMin (filteredBy y em)) /
      ((calculateExtent (filteredBy y em) yMin yMax (1/50)).2 -
        (calculateExtent (filteredBy y em) yMin yMax (1/50)).1) * b)) ∧
    1 ≤ bx ∧ 1 ≤ bY := by
  have hxl : 0 < (filteredBy x em).length := List.length_pos.mpr hx
  have hyl : 0 < (filteredBy y em).length := List.length_pos.mpr hy
  simp only [plotScatter, plotScatterCore, resolvedExtents, if_pos hxl,
    if_pos hyl, afterExtents, if_true] at hok
  unfold densityStage at hok
  rw [if_neg (by simp [List.isEmpty_iff, hx, hy])] at hok
  simp only [Except.ok.injEq] at hok
  subst hok
  rw [finishScatter_binInfo] at hbin
  simp only [densityBins, Option.some.injEq, Prod.mk.injEq] at hbin
  obtain ⟨hb, hbx, hby⟩ := hbin
  subst hb
  constructor
  · rfl
  constructor
  · rw [← hbx]
  constructor
  · rw [← hby]
  exact ⟨hbx ▸ one_le_clampPos _, hby ▸ one_le_clampPos _⟩

/-- Counterexample to C4 as stated: at `bin_width = 2` the code's base bin
count is `int(1/0.006) = 166`, while `round(1/0.006) = 167`: truncation, not
rounding. -/
theorem plotScatter_binCount_cex :
    (plotScatter [0, 10] [0, 10] none none (some (-1000)) (some 1000)
        (some (-1000)) (some 1000) true 2).map (fun r => r.binInfo)
      = .ok (some (166, 1, 1)) ∧
    (166 : ℤ) ≠ round ((1 : ℚ) / (2 * (3/1000))) := by
  constructor
  · unfold plotScatter plotScatterCore resolvedExtents afterExtents filteredBy densityStage
    norm_num [calculateExtent, npMin, npMax, rmin, rmax, rabs, pyInt, clampPos,
      interp2, argsort, argsortKey, gather, finishScatter, List.insertionSort,
      List.orderedInsert, Except.map, densityBins, densityValues]
  · norm_num [round_eq]

/-- Witness for C4 (amended) at `bin_width = 2`: the recorded base bin count
166 is the truncation of `1/0.006`, and the clamped per-axis count is 1. -/
theorem plotScatter_binCounts_spec_witness :
    filteredBy ([0, 10] : List ℚ) none ≠ [] ∧
    (166 : ℤ) = pyInt (1 / (2 * (3/1000))) ∧ (1 : ℤ) ≤ 1 := by
  have hok : plotScatter [0, 10] [0, 10] none none (some (-1000)) (some 1000)
      (some (-1000)) (some 1000) true 2
      = .ok ⟨[0, 10], [0, 10], [some 0, some 0], List.replicate 2 (2/5), 3,
          false, some (-1000), 1000, some (-1000), 1000, some (166, 1, 1)⟩ := by
    unfold plotScatter plotScatterCore resolvedExtents afterExtents filteredBy densityStage
    norm_num [calculateExtent, npMin, npMax, rmin, rmax, rabs, pyInt, clampPos,
      interp2, argsort, argsortKey, gather, finishScatter, List.insertionSort,
      List.orderedInsert, densityBins, densityValues]
  have h := plotScatter_binCounts_spec [0, 10] [0, 10] none none
    (some (-1000)) (some 1000) (some (-1000)) (some 1000) 2 _ 166 1 1
    (by simp [filteredBy]) (by simp [filteredBy]) hok rfl
  exact ⟨by simp [filteredBy], h.1, h.2.2.2.1⟩

theorem filteredBy_length (x y : List ℚ) (em : Option (List Bool))
    (hy : y.length = x.length) :
    (filteredBy y em).length = (filteredBy x em).length := by
  cases em <;> simp [filteredBy, gather_length, hy]

theorem filteredMask_replicate (x : List ℚ) (a : Bool) (em : Option (List Bool))
    (hem : ∀ m, em = some m → m.length = x.length) :
    filteredMask (List.replicate x.length a) em
      = List.replicate (filteredBy x em).length a := by
  cases em with
  | none => simp [filteredMask, filteredBy]
  | some m =>
    have hm := hem m rfl
    simp only [filteredMask, filteredBy]
    rw [gather_replicate _ _ _ (fun i hi => hm ▸ mem_maskIndices_lt m i hi)]
    rw [gather_length]

/-- An all-True highlight mask makes the color/alpha/draw-order stage behave
exactly as if no mask had been given. -/
theorem finishScatter_true_mask (x y z : List ℚ) (hz : z.length = x.length)
    (hy : y.length = x.length) (radius : ℚ) (rdY : Bool) (xLo : Option ℚ)
    (xHi : ℚ) (yLo : Option ℚ) (yHi : ℚ) (bi : Option (ℤ × ℤ × ℤ)) :
    finishScatter x y z (some (List.replicate x.length true)) radius rdY xLo
        xHi yLo yHi bi
      = finishScatter x y z none radius rdY xLo xHi yLo yHi bi := by
  unfold finishScatter
  have hget : ∀ i ∈ List.range x.length,
      (List.replicate x.length true).getD i false = true := by
    intro i hi
    have := List.mem_range.mp hi
    rw [List.getD_eq_getElem _ _ (by simpa using this)]
    exact List.getElem_replicate true (by simpa using this)
  have hzc : (List.range x.length).map
      (fun i => if (List.replicate x.length true).getD i false then
        (z.map some).getD i none else none) = z.map some := by
    rw [List.map_congr_left (fun i hi => by rw [hget i hi, if_pos rfl])]
    have h := map_range_getD (z.map some) none
    rw [List.length_map, hz] at h
    exact h
  have hal : (List.range x.length).map
      (fun i => if (List.replicate x.length true).getD i false then (2/5 : ℚ)
        else 3/10) = List.replicate x.length (2/5) := by
    rw [List.map_congr_left (fun i hi => by rw [hget i hi, if_pos rfl])]
    exact map_range_const x.length (2/5)
  have hnon : (List.range x.length).filter
      (fun i => !((List.replicate x.length true).getD i false)) = [] := by
    apply List.filter_eq_nil_iff.mpr
    intro i hi
    rw [hget i hi]
    simp
  have hhi : (List.range x.length).filter
      (fun i => (List.replicate x.length true).getD i false)
      = List.range x.length := by
    apply List.filter_eq_self.mpr
    intro i hi
    rw [hget i hi]
  simp only [hzc, hal, hnon, hhi, List.nil_append]
  have hgx : gather x (List.range x.length) = x := gather_range x
  have hgy : gather y (List.range x.length) = y := by
    rw [← hy]; exact gather_range y
  have hgz : gather (z.map some) (List.range x.length) = z.map some := by
    have h := gather_range (z.map some)
    rw [List.length_map, hz] at h
    exact h
  have hga : gather (List.replicate x.length (2/5 : ℚ)) (List.range x.length)
      = List.replicate x.length (2/5) := by
    have h := gather_range (List.replicate x.length (2/5 : ℚ))
    rw [List.length_replicate] at h
    exact h
  rw [hgx, hgy, hgz, hga]

/-- An all-False highlight mask makes every point neutral grey (`none`) with
alpha 0.3, one entry per plotted point. -/
theorem finishScatter_false_mask (x y z : List ℚ) (_hz : z.length = x.length)
    (radius : ℚ) (rdY : Bool) (xLo : Option ℚ) (xHi : ℚ) (yLo : Option ℚ)
    (yHi : ℚ) (bi : Option (ℤ × ℤ × ℤ)) :
    (finishScatter x y z (some (List.replicate x.length false)) radius rdY xLo
        xHi yLo yHi bi).zcolors
      = List.replicate (finishScatter x y z
          (some (List.replicate x.length false)) radius rdY xLo xHi yLo yHi
          bi).xs.length none ∧
    (finishScatter x y z (some (List.replicate x.length false)) radius rdY xLo
        xHi yLo yHi bi).alphas
      = List.replicate (finishScatter x y z
          (some (List.replicate x.length false)) radius rdY xLo xHi yLo yHi
          bi).xs.length (3/10) := by
  unfold finishScatter
  have hget : ∀ i ∈ List.range x.length,
      (List.replicate x.length false).getD i false = false := by
    intro i hi
    have := List.mem_range.mp hi
    rw [List.getD_eq_getElem _ _ (by simpa using this)]
    exact List.getElem_replicate false (by simpa using this)
  have hzc : (List.range x.length).map
      (fun i => if (List.replicate x.length false).getD i false then
        (z.map some).getD i none else none) = List.replicate x.length none := by
    rw [List.map_congr_left (fun i hi => by rw [hget i hi])]
    exact map_range_const x.length none
  have hal : (List.range x.length).map
      (fun i => if (List.replicate x.length false).getD i false then (2/5 : ℚ)
        else 3/10) = List.replicate x.length (3/10) := by
    rw [List.map_congr_left (fun i hi => by rw [hget i hi])]
    exact map_range_const x.length (3/10)
  have hnon : (List.range x.length).filter
      (fun i => !((List.replicate x.length false).getD i false))
      = List.range x.length := by
    apply List.filter_eq_self.mpr
    intro i hi
    rw [hget i hi]
    simp
  have hhi : (List.range x.length).filter
      (fun i => (List.replicate x.length false).getD i false) = [] := by
    apply List.filter_eq_nil_iff.mpr
    intro i hi
    rw [hget i hi]
    simp
  simp only [hzc, hal, hnon, hhi, List.append_nil]
  have hgz : gather (List.replicate x.length (none : Option ℚ))
      (List.range x.length) = List.replicate x.length none := by
    have h := gather_range (List.replicate x.length (none : Option ℚ))
    rw [List.length_replicate] at h
    exact h
  have hga : gather (List.replicate x.length (3/10 : ℚ)) (List.range x.length)
      = List.replicate x.length (3/10) := by
    have h := gather_range (List.replicate x.length (3/10 : ℚ))
    rw [List.length_replicate] at h
    exact h
  rw [hgz, hga]
  constructor <;> simp [gather_length]

theorem argsort_length (z : List ℚ) : (argsort z).length = z.length := by
  rw [(argsort_perm z).length_eq, List.length_range]

theorem finishScatter_gather_true_mask (x1 y1 z : List ℚ) (idx : List ℕ)
    (_hy : y1.length = x1.length) (hidx : ∀ i ∈ idx, i < x1.length)
    (radius : ℚ) (rdY : Bool) (xLo : Option ℚ) (xHi : ℚ) (yLo : Option ℚ)
    (yHi : ℚ) (bi : Option (ℤ × ℤ × ℤ)) :
    finishScatter (gather x1 idx) (gather y1 idx) (gather z idx)
        (some (gather (List.replicate x1.length true) idx)) radius rdY xLo xHi
        yLo yHi bi
      = finishScatter (gather x1 idx) (gather y1 idx) (gather z idx) none
          radius rdY xLo xHi yLo yHi bi := by
  rw [gather_replicate _ _ _ hidx]
  rw [show idx.length = (gather x1 idx).length from (gather_length x1 idx).symm]
  exact finishScatter_true_mask _ _ _ (by simp [gather_length])
    (by simp [gather_length]) radius rdY xLo xHi yLo yHi bi

theorem densityValues_length (x1 y1 : List ℚ) (xm xM ym yM w : ℚ) :
    (densityValues x1 y1 xm xM ym yM w).length = min x1.length y1.length := by
  simp [densityValues]

theorem densityStage_true_mask (x1 y1 : List ℚ) (hy : y1.length = x1.length)
    (xm xM ym yM w radius : ℚ) (rdY : Bool) :
    densityStage x1 y1 (some (List.replicate x1.length true)) xm xM ym yM w
        radius rdY
      = densityStage x1 y1 none xm xM ym yM w radius rdY := by
  unfold densityStage
  split
  · rfl
  · simp only [Option.map_some', Option.map_none']
    congr 1
    apply finishScatter_gather_true_mask _ _ _ _ hy
    intro i hi
    have h := mem_argsort_lt _ _ hi
    rwa [densityValues_length, hy, min_self] at h

theorem afterExtents_true_mask (x1 y1 : List ℚ) (hy : y1.length = x1.length)
    (xe ye : Option ℚ × Option ℚ) (cd : Bool) (w : ℚ) :
    afterExtents x1 y1 (some (List.replicate x1.length true)) xe ye cd w
      = afterExtents x1 y1 none xe ye cd w := by
  obtain ⟨xlo, xhi⟩ := xe
  obtain ⟨ylo, yhi⟩ := ye
  cases xhi with
  | none => rfl
  | some xM =>
    cases yhi with
    | none => rfl
    | some yM =>
      cases cd with
      | false =>
        simp only [afterExtents, Bool.false_eq_true, if_false]
        congr 1
        exact finishScatter_true_mask _ _ _ (by simp) hy _ _ _ _ _ _ _
      | true =>
        cases xlo with
        | none => rfl
        | some xm =>
          cases ylo with
          | none => rfl
          | some ym =>
            simp only [afterExtents, if_true]
            exact densityStage_true_mask x1 y1 hy _ _ _ _ w _ _

theorem plotScatterCore_true_mask (x1 y1 : List ℚ) (hy : y1.length = x1.length)
    (xMin xMax yMin yMax : Option ℚ) (cd : Bool) (w : ℚ) :
    plotScatterCore x1 y1 (some (List.replicate x1.length true)) xMin xMax
        yMin yMax cd w
      = plotScatterCore x1 y1 none xMin xMax yMin yMax cd w :=
  afterExtents_true_mask x1 y1 hy _ _ cd w

theorem densityStage_false_mask (x1 y1 : List ℚ) (hy : y1.length = x1.length)
    (xm xM ym yM w radius : ℚ) (rdY : Bool) (r : ScatterResult)
    (hok : densityStage x1 y1 (some (List.replicate x1.length false)) xm xM ym
      yM w radius rdY = .ok r) :
    r.zcolors = List.replicate r.xs.length none ∧
    r.alphas = List.replicate r.xs.length (3/10) := by
  unfold densityStage at hok
  split at hok
  · cases hok
  · simp only [Option.map_some', Except.ok.injEq] at hok
    subst hok
    have hb : ∀ i ∈ argsort (densityValues x1 y1 xm xM ym yM w),
        i < x1.length := by
      intro i hi
      have h := mem_argsort_lt _ _ hi
      rwa [densityValues_length, hy, min_self] at h
    rw [gather_replicate _ _ _ hb]
    rw [show (argsort (densityValues x1 y1 xm xM ym yM w)).length
        = (gather x1 (argsort (densityValues x1 y1 xm xM ym yM w))).length
      from (gather_length _ _).symm]
    exact finishScatter_false_mask _ _ _ (by simp [gather_length]) _ _ _ _ _ _ _

theorem afterExtents_false_mask (x1 y1 : List ℚ) (hy : y1.length = x1.length)
    (xe ye : Option ℚ × Option ℚ) (cd : Bool) (w : ℚ) (r : ScatterResult)
    (hok : afterExtents x1 y1 (some (List.replicate x1.length false)) xe ye cd
      w = .ok r) :
    r.zcolors = List.replicate r.xs.length none ∧
    r.alphas = List.replicate r.xs.length (3/10) := by
  obtain ⟨xlo, xhi⟩ := xe
  obtain ⟨ylo, yhi⟩ := ye
  cases xhi with
  | none => simp [afterExtents] at hok
  | some xM =>
    cases yhi with
    | none => simp [afterExtents] at hok
    | some yM =>
      cases cd with
      | false =>
        simp only [afterExtents, Bool.false_eq_true, if_false,
          Except.ok.injEq] at hok
        subst hok
        exact finishScatter_false_mask _ _ _ (by simp) _ _ _ _ _ _ _
      | true =>
        cases xlo with
        | none => simp [afterExtents] at hok
        | some xm =>
          cases ylo with
          | none => simp [afterExtents] at hok
          | some ym =>
            simp only [afterExtents, if_true] at hok
            exact densityStage_false_mask x1 y1 hy _ _ _ _ w _ _ r hok

theorem plotScatterCore_false_mask (x1 y1 : List ℚ)
    (hy : y1.length = x1.length) (xMin xMax yMin yMax : Option ℚ) (cd : Bool)
    (w : ℚ) (r : ScatterResult)
    (hok : plotScatterCore x1 y1 (some (List.replicate x1.length false)) xMin
      xMax yMin yMax cd w = .ok r) :
    r.zcolors = List.replicate r.xs.length none ∧
    r.alphas = List.replicate r.xs.length (3/10) :=
  afterExtents_false_mask x1 y1 hy _ _ cd w r hok

/-- C6: an all-True highlight mask produces per-point output (positions,
colors, alphas, draw order) identical to supplying no highlight mask, and an
all-False highlight mask colors every point neutral grey (`none`) with alpha
0.3.  The mask has one entry per original event, matching event-mask length
as NumPy boolean indexing requires. -/
theorem plotScatter_highlight_spec (x y : List ℚ) (em : Option (List Bool))
    (xMin xMax yMin yMax : Option ℚ) (cd : Bool) (w : ℚ)
    (hem : ∀ m, em = some m → m.length = x.length)
    (hy : y.length = x.length) :
    plotScatter x y em (some (List.replicate x.length true)) xMin xMax yMin
        yMax cd w
      = plotScatter x y em none xMin xMax yMin yMax cd w ∧
    (∀ r, plotScatter x y em (some (List.replicate x.length false)) xMin xMax
        yMin yMax cd w = .ok r →
      r.zcolors = List.replicate r.xs.length none ∧
      r.alphas = List.replicate r.xs.length (3/10)) := by
  constructor
  · unfold plotScatter
    simp only [Option.map_some', Option.map_none']
    rw [filteredMask_replicate x true em hem]
    exact plotScatterCore_true_mask _ _ (filteredBy_length x y em hy) _ _ _ _
      cd w
  · intro r hok
    unfold plotScatter at hok
    simp only [Option.map_some'] at hok
    rw [filteredMask_replicate x false em hem] at hok
    exact plotScatterCore_false_mask _ _ (filteredBy_length x y em hy) _ _ _ _
      cd w r hok

/-- Witness for C6 at the concrete call with points `[1,2] x [3,4]` and no
event mask. -/
theorem plotScatter_highlight_spec_witness :
    (([3, 4] : List ℚ).length = ([1, 2] : List ℚ).length) ∧
    plotScatter [1, 2] [3, 4] none (some (List.replicate 2 true)) none none
        none none false 4
      = plotScatter [1, 2] [3, 4] none none none none none none false 4 := by
  have h := plotScatter_highlight_spec [1, 2] [3, 4] none none none none none
    false 4 (fun m hm => by cases hm) rfl
  exact ⟨rfl, h.1⟩

/-- The color/alpha/draw-order stage permutes the points it is given: the
plotted (x, y) multiset is unchanged and colors/alphas stay aligned, one entry
per point. -/
theorem finishScatter_perm (x y z : List ℚ) (hm : Option (List Bool))
    (hy : y.length = x.length) (hz : z.length = x.length) (radius : ℚ)
    (rdY : Bool) (xLo : Option ℚ) (xHi : ℚ) (yLo : Option ℚ) (yHi : ℚ)
    (bi : Option (ℤ × ℤ × ℤ)) :
    (((finishScatter x y z hm radius rdY xLo xHi yLo yHi bi).xs).zip
      ((finishScatter x y z hm radius rdY xLo xHi yLo yHi bi).ys)).Perm
        (x.zip y) ∧
    (finishScatter x y z hm radius rdY xLo xHi yLo yHi bi).zcolors.length
      = (finishScatter x y z hm radius rdY xLo xHi yLo yHi bi).xs.length ∧
    (finishScatter x y z hm radius rdY xLo xHi yLo yHi bi).alphas.length
      = (finishScatter x y z hm radius rdY xLo xHi yLo yHi bi).xs.length ∧
    (finishScatter x y z hm radius rdY xLo xHi yLo yHi bi).xs.length
      = x.length := by
  cases hm with
  | none =>
    refine ⟨List.Perm.refl _, ?_, ?_, ?_⟩ <;>
      simp [finishScatter, hz]
  | some m =>
    have hperm : ((List.range x.length).filter
        (fun i => !(m.getD i false)) ++ (List.range x.length).filter
        (fun i => m.getD i false)).Perm (List.range x.length) :=
      flatnonzero_split_perm x.length (fun i => m.getD i false)
    refine ⟨?_, ?_, ?_, ?_⟩
    · exact (zip_gather_perm x y _ hy hperm)
    · simp [finishScatter, gather_length]
    · simp [finishScatter, gather_length]
    · simp only [finishScatter, gather_length]
      exact hperm.length_eq.trans (List.length_range x.length)

/-- The density sort stage permutes the filtered points. -/
theorem densityStage_perm (x1 y1 : List ℚ) (hm1 : Option (List Bool))
    (xm xM ym yM w radius : ℚ) (rdY : Bool) (r : ScatterResult)
    (hy : y1.length = x1.length)
    (hok : densityStage x1 y1 hm1 xm xM ym yM w radius rdY = .ok r) :
    (r.xs.zip r.ys).Perm (x1.zip y1) ∧
    r.zcolors.length = r.xs.length ∧
    r.alphas.length = r.xs.length ∧
    r.xs.length = x1.length := by
  unfold densityStage at hok
  split at hok
  · cases hok
  · simp only [Except.ok.injEq] at hok
    subst hok
    have hzl : (densityValues x1 y1 xm xM ym yM w).length = x1.length := by
      rw [densityValues_length, hy, min_self]
    have hperm : (argsort (densityValues x1 y1 xm xM ym yM w)).Perm
        (List.range x1.length) := by
      have h := argsort_perm (densityValues x1 y1 xm xM ym yM w)
      rwa [hzl] at h
    have hfin := finishScatter_perm
      (gather x1 (argsort (densityValues x1 y1 xm xM ym yM w)))
      (gather y1 (argsort (densityValues x1 y1 xm xM ym yM w)))
      (gather (densityValues x1 y1 xm xM ym yM w)
        (argsort (densityValues x1 y1 xm xM ym yM w)))
      (hm1.map (fun h => gather h (argsort (densityValues x1 y1 xm xM ym yM w))))
      (by simp [gather_length]) (by simp [gather_length]) radius rdY
      (some xm) xM (some ym) yM (some (densityBins x1 y1 xm xM ym yM w))
    refine ⟨hfin.1.trans (zip_gather_perm x1 y1 _ hy hperm), hfin.2.1,
      hfin.2.2.1, ?_⟩
    rw [hfin.2.2.2, gather_length, hperm.length_eq, List.length_range]

/-- A successful run of the post-filtering pipeline permutes the filtered
points and emits exactly one color and one alpha per plotted point. -/
theorem afterExtents_perm (x1 y1 : List ℚ) (hm1 : Option (List Bool))
    (xe ye : Option ℚ × Option ℚ) (cd : Bool) (w : ℚ) (r : ScatterResult)
    (hy : y1.length = x1.length)
    (hok : afterExtents x1 y1 hm1 xe ye cd w = .ok r) :
    (r.xs.zip r.ys).Perm (x1.zip y1) ∧
    r.zcolors.length = r.xs.length ∧
    r.alphas.length = r.xs.length ∧
    r.xs.length = x1.length := by
  obtain ⟨xlo, xhi⟩ := xe
  obtain ⟨ylo, yhi⟩ := ye
  cases xhi with
  | none => simp [afterExtents] at hok
  | some xM =>
    cases yhi with
    | none => simp [afterExtents] at hok
    | some yM =>
      cases cd with
      | false =>
        simp only [afterExtents, Bool.false_eq_true, if_false,
          Except.ok.injEq] at hok
        subst hok
        exact finishScatter_perm _ _ _ _ hy (by simp) _ _ _ _ _ _ _
      | true =>
        cases xlo with
        | none => simp [afterExtents] at hok
        | some xm =>
          cases ylo with
          | none => simp [afterExtents] at hok
          | some ym =>
            simp only [afterExtents, if_true] at hok
            exact densityStage_perm x1 y1 hm1 _ _ _ _ w _ _ r hy hok

/-- C10: the density sort and the highlight regrouping are index permutations
of the event-mask-filtered input: the multiset of plotted (x, y) points equals
the multiset of filtered input points (no point dropped or duplicated), and
the color and alpha arrays have exactly one entry per plotted point. -/
theorem plotScatter_perm_spec (x y : List ℚ) (em hm : Option (List Bool))
    (xMin xMax yMin yMax : Option ℚ) (cd : Bool) (w : ℚ) (r : ScatterResult)
    (hy : y.length = x.length)
    (hok : plotScatter x y em hm xMin xMax yMin yMax cd w = .ok r) :
    (r.xs.zip r.ys).Perm ((filteredBy x em).zip (filteredBy y em)) ∧
    r.zcolors.length = r.xs.length ∧
    r.alphas.length = r.xs.length ∧
    r.xs.length = (filteredBy x em).length :=
  afterExtents_perm (filteredBy x em) (filteredBy y em)
    (hm.map (fun h => filteredMask h em)) _ _ cd w r
    (filteredBy_length x y em hy) hok

/-- Witness for C10 at a concrete density-colored call: the plotted points of
`plot_scatter([0,10], [0,10], ...)` are a permutation of the input points. -/
theorem plotScatter_perm_spec_witness :
    (([0, 10] : List ℚ).length = ([0, 10] : List ℚ).length) ∧
    ((⟨[0, 10], [0, 10], [some 0, some 0], List.replicate 2 (2/5), 3,
        false, some (-1000), 1000, some (-1000), 1000,
        some (166, 1, 1)⟩ : ScatterResult).xs.zip
      (⟨[0, 10], [0, 10], [some 0, some 0], List.replicate 2 (2/5), 3,
        false, some (-1000), 1000, some (-1000), 1000,
        some (166, 1, 1)⟩ : ScatterResult).ys).Perm
      ((filteredBy [0, 10] none).zip (filteredBy [0, 10] none)) := by
  have hok : plotScatter [0, 10] [0, 10] none none (some (-1000)) (some 1000)
      (some (-1000)) (some 1000) true 2
      = .ok ⟨[0, 10], [0, 10], [some 0, some 0], List.replicate 2 (2/5), 3,
          false, some (-1000), 1000, some (-1000), 1000,
          some (166, 1, 1)⟩ := by
    unfold plotScatter plotScatterCore resolvedExtents afterExtents filteredBy
      densityStage
    norm_num [calculateExtent, npMin, npMax, rmin, rmax, rabs, pyInt, clampPos,
      interp2, argsort, argsortKey, gather, finishScatter, List.insertionSort,
      List.orderedInsert, densityBins, densityValues]
  have h := plotScatter_perm_spec [0, 10] [0, 10] none none (some (-1000))
    (some 1000) (some (-1000)) (some 1000) true 2 _ rfl hok
  exact ⟨rfl, h.1⟩

/-- C7: for every (non-Boolean) gate whose dimension count is not 1 or 2,
`plot_gate` raises a typed error before touching event data — no subsample
call and no event access appear in the trace: 0 dimensions raises the
"no dimensions" error, more than 2 the "unsupported dimensionality" error. -/
theorem plotGate_dim_count_spec (g : PGate) (hk : g.kind ≠ .boolean)
    (h1 : g.dims.length ≠ 1) (h2 : g.dims.length ≠ 2) :
    (g.dims.length = 0 → (plotGatePrefix g).1 = .error .noDims) ∧
    (2 < g.dims.length → (plotGatePrefix g).1 = .error .tooManyDims) ∧
    CollabCall.subsampleEvents ∉ (plotGatePrefix g).2 ∧
    CollabCall.preprocessEvents ∉ (plotGatePrefix g).2 := by
  have hcount : ((g.dims.map resolveDim).map (fun p => p.1)).length
      = g.dims.length := by simp
  refine ⟨?_, ?_, ?_, ?_⟩ <;>
    simp only [plotGatePrefix, if_neg hk, hcount, if_neg h1, if_neg h2]
  · intro h0
    rw [if_neg (by omega)]
  · intro hgt
    rw [if_pos hgt]
  · split <;> simp
  · split <;> simp

/-- Witness for C7: a polygon gate with no dimensions. -/
theorem plotGate_dim_count_spec_witness :
    ((⟨.polygon, []⟩ : PGate).kind ≠ .boolean) ∧
    (plotGatePrefix ⟨.polygon, []⟩).1 = .error .noDims ∧
    CollabCall.subsampleEvents ∉ (plotGatePrefix ⟨.polygon, []⟩).2 := by
  have h := plotGate_dim_count_spec ⟨.polygon, []⟩ (by simp) (by simp) (by simp)
  exact ⟨by simp, h.1 rfl, h.2.2.1⟩

/-- C8: a Boolean gate makes `plot_gate` raise its typed error immediately,
with zero calls to the subsample collaborator. -/
theorem plotGate_boolean_spec (g : PGate) (hk : g.kind = .boolean) :
    (plotGatePrefix g).1 = .error .booleanNotAllowed ∧
    (plotGatePrefix g).2.count CollabCall.subsampleEvents = 0 := by
  constructor <;> simp [plotGatePrefix, hk]

/-- Witness for C8: a Boolean gate over one regular dimension. -/
theorem plotGate_boolean_spec_witness :
    ((⟨.boolean, [⟨.regular, 0, none, none, none⟩]⟩ : PGate).kind
      = .boolean) ∧
    (plotGatePrefix ⟨.boolean, [⟨.regular, 0, none, none, none⟩]⟩).1
      = .error .booleanNotAllowed ∧
    (plotGatePrefix
        ⟨.boolean, [⟨.regular, 0, none, none, none⟩]⟩).2.count
      CollabCall.subsampleEvents = 0 := by
  have h := plotGate_boolean_spec ⟨.boolean, [⟨.regular, 0, none, none, none⟩]⟩ rfl
  exact ⟨rfl, h.1, h.2⟩

theorem eigh2_ascending (a b c : ℝ) : (eigh2 a b c).1.1 ≤ (eigh2 a b c).1.2 := by
  unfold eigh2
  split
  · split
    · rename_i h
      simpa using h
    · rename_i h
      simpa using le_of_not_le h
  · have hd : (0:ℝ) ≤ Real.sqrt (((a - c) / 2) ^ 2 + b ^ 2) :=
      Real.sqrt_nonneg _
    simp only []
    linarith

theorem argsortDesc2_of_le (v0 v1 : ℝ) (h : v0 ≤ v1) :
    argsortDesc2 v0 v1 = (1, 0) := by
  unfold argsortDesc2
  rw [if_neg (not_lt.mpr h)]

/-- C2 (amended): `render_ellipse` sorts the eigenpairs descending by
eigenvalue (width comes from the larger eigenvalue, height from the smaller),
sets the rotation angle to `arctan2` of the dominant eigenvector's (y, x)
components, and emits full axis lengths `2*sqrt(eigenvalue*distance_square)`.
For covariance = identity, `distance_square = 1` and center (0,0) it returns
width = height = 2.0 and angle = π/2: `eigh` returns ascending eigenvalues,
so the descending reorder always swaps the two eigenpairs, making the
dominant eigenvector of the identity `(0, 1)`. -/
theorem renderEllipse_spec (cx cy a b c ds : ℝ) :
    (renderEllipse cx cy a b c ds).width
      = 2 * Real.sqrt (max (eigh2 a b c).1.1 (eigh2 a b c).1.2 * ds) ∧
    (renderEllipse cx cy a b c ds).height
      = 2 * Real.sqrt (min (eigh2 a b c).1.1 (eigh2 a b c).1.2 * ds) ∧
    (renderEllipse cx cy a b c ds).angle
      = arctan2 (eigh2 a b c).2.2.2 (eigh2 a b c).2.2.1 ∧
    renderEllipse 0 0 1 0 1 1
      = ⟨0, 0, 2, 2, Real.pi / 2⟩ := by
  have hasc := eigh2_ascending a b c
  have hord := argsortDesc2_of_le _ _ hasc
  refine ⟨?_, ?_, ?_, ?_⟩
  · simp only [renderEllipse, hord]
    rw [max_eq_right hasc]
    norm_num
  · simp only [renderEllipse, hord]
    rw [min_eq_left hasc]
    norm_num
  · simp only [renderEllipse, hord]
    norm_num
  · have he : eigh2 1 0 1 = ((1, 1), ((1, 0), (0, 1))) := by
      unfold eigh2
      rw [if_pos rfl, if_pos le_rfl]
    have hod : argsortDesc2 (1 : ℝ) 1 = (1, 0) := argsortDesc2_of_le 1 1 le_rfl
    simp only [renderEllipse, he, hod, arctan2, EllipseShape.mk.injEq]
    norm_num [Real.sqrt_one]
    exact Complex.arg_I

/-- Counterexample to C2 as stated: at the identity covariance the code's
rotation angle is π/2, not 0 (the ascending `eigh` output is reordered by the
descending sort, so the dominant eigenvector is `(0, 1)`). -/
theorem renderEllipse_identity_cex :
    (renderEllipse 0 0 1 0 1 1).width = 2 ∧
    (renderEllipse 0 0 1 0 1 1).height = 2 ∧
    (renderEllipse 0 0 1 0 1 1).angle = Real.pi / 2 ∧
    (renderEllipse 0 0 1 0 1 1).angle ≠ 0 := by
  have he : eigh2 1 0 1 = ((1, 1), ((1, 0), (0, 1))) := by
    unfold eigh2
    rw [if_pos rfl, if_pos le_rfl]
  have hod : argsortDesc2 (1 : ℝ) 1 = (1, 0) := argsortDesc2_of_le 1 1 le_rfl
  have hangle : (renderEllipse 0 0 1 0 1 1).angle = Real.pi / 2 := by
    simp only [renderEllipse, he, hod, arctan2]
    norm_num
    exact Complex.arg_I
  refine ⟨?_, ?_, hangle, ?_⟩
  · simp only [renderEllipse, he, hod]
    norm_num [Real.sqrt_one]
  · simp only [renderEllipse, he, hod]
    norm_num [Real.sqrt_one]
  · rw [hangle]
    have := Real.pi_pos
    positivity

theorem map_range_getD_lt {α : Type} (f : ℕ → α) (n j : ℕ) (d : α)
    (h : j < n) : ((List.range n).map f).getD j d = f j := by
  rw [List.getD_eq_getElem _ _ (by simpa using h)]
  simp

theorem getD_map_lt {α β : Type} (f : α → β) (l : List α) (j : ℕ) (d : β)
    (d2 : α) (h : j < l.length) : (l.map f).getD j d = f (l.getD j d2) := by
  rw [List.getD_eq_getElem _ _ (by simpa using h),
    List.getD_eq_getElem _ _ h]
  simp

theorem sampleColor_zero : sampleColor 0 = (0, 0, 1/8) := by
  have hlut : jetLut 0 = (0, 0, 1/2) := by
    norm_num [jetLut, jetR, jetG, jetB]
  have hhsv : rgbToHsv 0 0 (1/2) = (2/3, 1, 1/2) := by
    norm_num [rgbToHsv, rmax, rmin, fract]
  have hnl : newLum 0 = 1/4 := by
    simp [newLum]
  simp only [sampleColor, hlut, hhsv, hnl]
  norm_num [hsvToRgb, rabs, Int.toNat_ofNat]
  norm_num [show Int.toNat 4 % 6 = 4 from rfl]

theorem sampleColor_139 :
    sampleColor 139
      = ((((139/196 : ℝ) + newLum 139) / 2) * (230/523),
         ((139/196 : ℝ) + newLum 139) / 2, 0) := by
  have hlut : jetLut 139 = (995/1581, 1, 535/1581) := by
    norm_num [jetLut, jetR, jetG, jetB]
  have hhsv : rgbToHsv (995/1581) 1 (535/1581) = (136/523, 1046/1581, 1) := by
    norm_num [rgbToHsv, rmax, rmin, fract]
  simp only [sampleColor, hlut, hhsv]
  norm_num [hsvToRgb, rabs]

theorem sampleColor_147 :
    sampleColor 147
      = ((((3/4 : ℝ) + newLum 147) / 2) * (130/201),
         ((3/4 : ℝ) + newLum 147) / 2, 0) := by
  have hlut : jetLut 147 = (385/527, 1, 125/527) := by
    norm_num [jetLut, jetR, jetG, jetB]
  have hhsv : rgbToHsv (385/527) 1 (125/527) = (136/603, 402/527, 1) := by
    norm_num [rgbToHsv, rmax, rmin, fract]
  simp only [sampleColor, hlut, hhsv]
  norm_num [hsvToRgb, rabs]

theorem sampleColor_239 :
    sampleColor 239
      = ((((881/1122 : ℝ) * (153/196) + newLum 239) / 2), 0, 0) := by
  have hlut : jetLut 239 = (881/1122, 0, 0) := by
    norm_num [jetLut, jetR, jetG, jetB]
  have hhsv : rgbToHsv (881/1122) 0 0 = (0, 1, 881/1122) := by
    norm_num [rgbToHsv, rmax, rmin, fract]
  simp only [sampleColor, hlut, hhsv]
  norm_num [hsvToRgb, rabs]

theorem newColorList_length : newColorList.length = 33 := by
  simp [newColorList, cmSample]

theorem newJet_entry_0 : newJet.getD 0 (0, 0, 0) = (0, 0, 1/8) := by
  have hc0 : newColorList.getD 0 (0, 0, 0) = (0, 0, 1/8) := by
    rw [newColorList, getD_map_lt sampleColor cmSample 0 (0, 0, 0) 0
      (by norm_num [cmSample]), show cmSample.getD 0 0 = 0 from rfl,
      sampleColor_zero]
  rw [newJet, fromListLut, map_range_getD_lt _ _ _ _ (by norm_num)]
  simp only [newColorList_length]
  rw [show min ((33 : ℕ) - 2) (Int.toNat ⌊((0 : ℕ) : ℚ) * (((33 : ℕ) : ℚ) - 1)
      / (((256 : ℕ) : ℚ) - 1)⌋) = 0 by norm_num]
  rw [hc0]
  simp only [Prod.mk.injEq]
  push_cast
  refine ⟨by ring, by ring, by ring⟩

theorem newJet_entry_255 : newJet.getD 255 (0, 0, 0)
    = (((881/1122 : ℝ) * (153/196) + newLum 239) / 2, 0, 0) := by
  have hc32 : newColorList.getD 32 (0, 0, 0)
      = (((881/1122 : ℝ) * (153/196) + newLum 239) / 2, 0, 0) := by
    rw [newColorList, getD_map_lt sampleColor cmSample 32 (0, 0, 0) 0
      (by norm_num [cmSample]), show cmSample.getD 32 0 = 239 from rfl,
      sampleColor_239]
  rw [newJet, fromListLut, map_range_getD_lt _ _ _ _ (by norm_num)]
  simp only [newColorList_length]
  rw [show min ((33 : ℕ) - 2) (Int.toNat ⌊((255 : ℕ) : ℚ) * (((33 : ℕ) : ℚ) - 1)
      / (((256 : ℕ) : ℚ) - 1)⌋) = 31 by norm_num]
  rw [show (31 : ℕ) + 1 = 32 from rfl]
  rw [hc32]
  simp only [Prod.mk.injEq]
  push_cast
  refine ⟨by ring, by ring, by ring⟩

theorem newJet_entry_128 : newJet.getD 128 (0, 0, 0)
    = ((239/255 : ℝ) * ((((139/196 : ℝ) + newLum 139) / 2) * (230/523))
         + (16/255) * ((((3/4 : ℝ) + newLum 147) / 2) * (130/201)),
       (239/255 : ℝ) * (((139/196 : ℝ) + newLum 139) / 2)
         + (16/255) * (((3/4 : ℝ) + newLum 147) / 2),
       0) := by
  have hc16 : newColorList.getD 16 (0, 0, 0)
      = ((((139/196 : ℝ) + newLum 139) / 2) * (230/523),
         ((139/196 : ℝ) + newLum 139) / 2, 0) := by
    rw [newColorList, getD_map_lt sampleColor cmSample 16 (0, 0, 0) 0
      (by norm_num [cmSample]), show cmSample.getD 16 0 = 139 from rfl,
      sampleColor_139]
  have hc17 : newColorList.getD 17 (0, 0, 0)
      = ((((3/4 : ℝ) + newLum 147) / 2) * (130/201),
         ((3/4 : ℝ) + newLum 147) / 2, 0) := by
    rw [newColorList, getD_map_lt sampleColor cmSample 17 (0, 0, 0) 0
      (by norm_num [cmSample]), show cmSample.getD 17 0 = 147 from rfl,
      sampleColor_147]
  rw [newJet, fromListLut, map_range_getD_lt _ _ _ _ (by norm_num)]
  simp only [newColorList_length]
  rw [show min ((33 : ℕ) - 2) (Int.toNat ⌊((128 : ℕ) : ℚ) * (((33 : ℕ) : ℚ) - 1)
      / (((256 : ℕ) : ℚ) - 1)⌋) = 16 by norm_num; rfl]
  rw [show (16 : ℕ) + 1 = 17 from rfl]
  rw [hc16, hc17]
  simp only [Prod.mk.injEq]
  push_cast
  refine ⟨by ring, by ring, by ring⟩

theorem sin_139_bound : (9/10 : ℝ) ≤ Real.sin ((139 : ℝ) * Real.pi / 255) := by
  have h := Real.cos_pi_div_two_sub ((139 : ℝ) * Real.pi / 255)
  rw [show Real.pi / 2 - (139 : ℝ) * Real.pi / 255
      = -(23 * Real.pi / 510) by ring, Real.cos_neg] at h
  rw [← h]
  have hb := @Real.one_sub_sq_div_two_le_cos (23 * Real.pi / 510)
  have hπ : Real.pi ≤ 4 := Real.pi_le_four
  have hπ0 : 0 < Real.pi := Real.pi_pos
  have hπ2 : Real.pi ^ 2 ≤ 16 := by nlinarith
  nlinarith

theorem sin_147_bound : (9/10 : ℝ) ≤ Real.sin ((147 : ℝ) * Real.pi / 255) := by
  have h := Real.cos_pi_div_two_sub ((147 : ℝ) * Real.pi / 255)
  rw [show Real.pi / 2 - (147 : ℝ) * Real.pi / 255
      = -(39 * Real.pi / 510) by ring, Real.cos_neg] at h
  rw [← h]
  have hb := @Real.one_sub_sq_div_two_le_cos (39 * Real.pi / 510)
  have hπ : Real.pi ≤ 4 := Real.pi_le_four
  have hπ0 : 0 < Real.pi := Real.pi_pos
  have hπ2 : Real.pi ^ 2 ≤ 16 := by nlinarith
  nlinarith

theorem sin_239_upper : Real.sin ((239 : ℝ) * Real.pi / 255) ≤ 1/5 := by
  rw [show (239 : ℝ) * Real.pi / 255 = Real.pi - 16 * Real.pi / 255 by ring,
    Real.sin_pi_sub]
  have hπ0 : 0 < Real.pi := Real.pi_pos
  have h1 : (0 : ℝ) < 16 * Real.pi / 255 := by positivity
  have h2 := Real.sin_lt h1
  have hπ : Real.pi < 3.15 := Real.pi_lt_d2
  nlinarith

theorem sin_239_pos : 0 < Real.sin ((239 : ℝ) * Real.pi / 255) := by
  apply Real.sin_pos_of_pos_of_lt_pi
  · have := Real.pi_pos
    positivity
  · nlinarith [Real.pi_pos]

set_option maxHeartbeats 1600000 in
/-- C9: the custom colormap lookup table built by
`_generate_custom_colormap(cm_sample, jet)` has exactly 256 entries, and the
luminance (the HLS lightness the source itself computes as `new_l`) at both
ends of the table is strictly less than the luminance at its midpoint. -/
theorem newJet_spec :
    newJet.length = 256 ∧
    luminance (newJet.getD 0 (0, 0, 0))
      < luminance (newJet.getD 128 (0, 0, 0)) ∧
    luminance (newJet.getD 255 (0, 0, 0))
      < luminance (newJet.getD 128 (0, 0, 0)) := by
  have hL139 : newLum 139 = Real.sin ((139 : ℝ) * Real.pi / 255) * (3/4) + 1/4 := by
    norm_num [newLum]
  have hL147 : newLum 147 = Real.sin ((147 : ℝ) * Real.pi / 255) * (3/4) + 1/4 := by
    norm_num [newLum]
  have hL239 : newLum 239 = Real.sin ((239 : ℝ) * Real.pi / 255) * (3/4) + 1/4 := by
    norm_num [newLum]
  have hs139 := sin_139_bound
  have hs147 := sin_147_bound
  have hs239u := sin_239_upper
  have hs239l := sin_239_pos
  have hs139u : Real.sin ((139 : ℝ) * Real.pi / 255) ≤ 1 := Real.sin_le_one _
  have hs147u : Real.sin ((147 : ℝ) * Real.pi / 255) ≤ 1 := Real.sin_le_one _
  have hm139l : (79/100 : ℝ) ≤ ((139/196 : ℝ) + newLum 139) / 2 := by
    rw [hL139]; nlinarith
  have hm139u : ((139/196 : ℝ) + newLum 139) / 2 ≤ 1 := by
    rw [hL139]; nlinarith
  have hm147l : (79/100 : ℝ) ≤ ((3/4 : ℝ) + newLum 147) / 2 := by
    rw [hL147]; nlinarith
  have hm147u : ((3/4 : ℝ) + newLum 147) / 2 ≤ 1 := by
    rw [hL147]; nlinarith
  have hm239l : (0 : ℝ) ≤ ((881/1122 : ℝ) * (153/196) + newLum 239) / 2 := by
    rw [hL239]; nlinarith
  have hm239u : ((881/1122 : ℝ) * (153/196) + newLum 239) / 2 ≤ 51/100 := by
    rw [hL239]; nlinarith
  have hg0 : (0 : ℝ) ≤ (239/255 : ℝ) * (((139/196 : ℝ) + newLum 139) / 2)
      + (16/255) * (((3/4 : ℝ) + newLum 147) / 2) := by nlinarith
  have hr0 : (0 : ℝ) ≤ (239/255 : ℝ) * ((((139/196 : ℝ) + newLum 139) / 2) * (230/523))
      + (16/255) * ((((3/4 : ℝ) + newLum 147) / 2) * (130/201)) := by nlinarith
  have hrg : (239/255 : ℝ) * ((((139/196 : ℝ) + newLum 139) / 2) * (230/523))
      + (16/255) * ((((3/4 : ℝ) + newLum 147) / 2) * (130/201))
      ≤ (239/255 : ℝ) * (((139/196 : ℝ) + newLum 139) / 2)
      + (16/255) * (((3/4 : ℝ) + newLum 147) / 2) := by nlinarith
  have hlum128 : luminance (newJet.getD 128 (0, 0, 0))
      = ((239/255 : ℝ) * (((139/196 : ℝ) + newLum 139) / 2)
          + (16/255) * (((3/4 : ℝ) + newLum 147) / 2)) / 2 := by
    rw [newJet_entry_128]
    unfold luminance
    simp only []
    rw [max_eq_left hg0, max_eq_right hrg, min_eq_right hg0, min_eq_right hr0]
    ring
  have hlum0 : luminance (newJet.getD 0 (0, 0, 0)) = 1/16 := by
    rw [newJet_entry_0]
    norm_num [luminance]
  have hlum255 : luminance (newJet.getD 255 (0, 0, 0))
      = (((881/1122 : ℝ) * (153/196) + newLum 239) / 2) / 2 := by
    rw [newJet_entry_255]
    unfold luminance
    simp only []
    rw [max_self, max_eq_left hm239l, min_self, min_eq_right hm239l]
    ring
  refine ⟨?_, ?_, ?_⟩
  · rw [newJet, fromListLut, List.length_map, List.length_range]
  · rw [hlum0, hlum128]
    clear hlum0 hlum128 hlum255
    linarith
  · rw [hlum255, hlum128]
    clear hlum0 hlum128 hlum255
    linarith

end FlowKit
